import Mathlib

/-
  Verification of the interview-coach dialogue engine.

  Shallow embedding of the core of the repository:
  - `src/models.py` (SessionPhase, UserIntent, GuidanceState, FollowUpState, Session),
  - `src/coach_engine.py` (CoachEngine handlers and `process_input`),
  - `src/llm_client.py` (`QwenClient._parse_json`).

  Strings are modeled as `List Char`; Python dict values that the engine reads
  are modeled by `PyVal` (string or boolean), a dict by an association list.
  The LLM collaborator is modeled as an oracle (`TurnOracle`): one `Except`
  value per call site of a turn, `.error` modeling a raised transport failure.
  Python in-place mutation is modeled by explicit state passing: every handler
  returns the session state reached so far together with either the reply or
  the propagated error, matching Python semantics where an exception leaves
  already-performed mutations in place.
-/

namespace DM

abbrev Str := List Char

/-- Python `\s` whitespace characters (as used by `str.strip` and `re.\s`). -/
def pySpace (c : Char) : Bool :=
  c = ' ' || c = '\t' || c = '\n' || c = '\r' || c = '\x0b' || c = '\x0c'

/-- Python `str.strip()`: remove leading and trailing whitespace. -/
def pyTrim (s : Str) : Str :=
  ((s.dropWhile pySpace).reverse.dropWhile pySpace).reverse

/-- Python `str.lower()` (ASCII case folding; CJK characters are unaffected). -/
def pyLower (s : Str) : Str := s.map Char.toLower

/-- Auxiliary for substring containment: does `pat` occur in the haystack? -/
def strContainsAux (pat : Str) : Str → Bool
  | [] => pat.isEmpty
  | c :: rest => pat.isPrefixOf (c :: rest) || strContainsAux pat rest

/-- Python `pat in hay` on strings. -/
def strContains (hay pat : Str) : Bool := strContainsAux pat hay

/-- Auxiliary for `strFind`: index of the first occurrence of `pat`. -/
def strFindAux (pat : Str) : Str → Option Nat
  | [] => if pat.isEmpty then some 0 else none
  | c :: rest =>
    if pat.isPrefixOf (c :: rest) then some 0
    else (strFindAux pat rest).map (· + 1)

/-- Python `hay.find(pat)` (as an `Option` instead of `-1`). -/
def strFind (hay pat : Str) : Option Nat := strFindAux pat hay

/-- Python `hay.rfind(c)` for a single character (as an `Option`). -/
def strRFindChar (hay : Str) (c : Char) : Option Nat :=
  (strFindAux [c] hay.reverse).map (fun i => hay.length - 1 - i)

/-- Python slice `s[a:b]`. -/
def strSlice (s : Str) (a b : Nat) : Str := (s.drop a).take (b - a)

/-- A Python value as read by the engine from a parsed-JSON dict. -/
inductive PyVal where
  | vstr : Str → PyVal
  | vbool : Bool → PyVal
deriving DecidableEq, Repr

/-- A Python dict as returned by `json.loads` / `call_json`. -/
abbrev PyDict := List (String × PyVal)

/-- Python `d.get(k, dflt)`. -/
def PyDict.getD (d : PyDict) (k : String) (dflt : PyVal) : PyVal :=
  match d.find? (fun kv => kv.1 == k) with
  | some kv => kv.2
  | none => dflt

/-- Python truthiness of a value (`if v:`). -/
def pyTruthy : PyVal → Bool
  | .vstr s => !s.isEmpty
  | .vbool b => b

/-- Coercion of a value into the string position of an f-string. -/
def pyStr : PyVal → Str
  | .vstr s => s
  | .vbool b => if b then "True".toList else "False".toList

/-- Python `v == "lit"` where `v` came from a dict. -/
def pyEqStr (v : PyVal) (s : Str) : Bool :=
  match v with
  | .vstr t => t == s
  | _ => false

/-! ## Data model (src/models.py) -/

/-- `SessionPhase` enum from `models.py`. -/
inductive SessionPhase where
  | waiting_problem
  | waiting_code
  | guiding
  | followup
  | teaching
  | completed
deriving DecidableEq, Repr

/-- `UserIntent` enum from `models.py`. -/
inductive UserIntent where
  | submit_code
  | ask_for_help
  | answer_question
  | ask_question
  | skip_problem
  | other
deriving DecidableEq, Repr

/-- `Problem` dataclass from `models.py` (timestamps elided; the engine reads
only `title` and `description`). -/
structure Problem where
  title : Str
  description : Str
  difficulty : Str := "medium".toList
  expected_complexity : Option Str := none
  test_cases : List PyDict := []
  solution_hints : List Str := []
deriving DecidableEq, Repr

/-- `Message` dataclass from `models.py` (`timestamp` and `metadata` elided:
they come from the wall clock and are never read by the engine). -/
structure Message where
  role : String
  content : Str
deriving DecidableEq, Repr

/-- `GuidanceState` dataclass from `models.py`. -/
structure GuidanceState where
  attempt_count : Nat := 0
  max_attempts : Nat := 5
  current_hint_level : Nat := 1
  topics_covered : List Str := []
deriving DecidableEq, Repr

/-- `GuidanceState.increment_attempt`: bump the counter, auto-escalate the
hint level once the count reaches 3, and report whether attempts remain.
Python mutates in place and returns the boolean; here we return both. -/
def GuidanceState.increment_attempt (g : GuidanceState) : GuidanceState × Bool :=
  let g1 := { g with attempt_count := g.attempt_count + 1 }
  let g2 :=
    if 3 ≤ g1.attempt_count then
      { g1 with current_hint_level := min 3 (g1.current_hint_level + 1) }
    else g1
  (g2, decide (g2.attempt_count < g2.max_attempts))

/-- `GuidanceState.is_exhausted`. -/
def GuidanceState.is_exhausted (g : GuidanceState) : Bool :=
  decide (g.max_attempts ≤ g.attempt_count)

/-- `GuidanceState.reset`. -/
def GuidanceState.reset (g : GuidanceState) : GuidanceState :=
  { g with attempt_count := 0, current_hint_level := 1, topics_covered := [] }

/-- `FollowUpState` dataclass from `models.py`. -/
structure FollowUpState where
  questions_asked : Nat := 0
  total_questions : Nat := 3
  questions_history : List Str := []
deriving DecidableEq, Repr

/-- `FollowUpState.add_question`. -/
def FollowUpState.add_question (f : FollowUpState) (q : Str) : FollowUpState :=
  { f with questions_history := f.questions_history ++ [q],
           questions_asked := f.questions_asked + 1 }

/-- `FollowUpState.is_complete`. -/
def FollowUpState.is_complete (f : FollowUpState) : Bool :=
  decide (f.total_questions ≤ f.questions_asked)

/-- `FollowUpState.reset`. -/
def FollowUpState.reset (f : FollowUpState) : FollowUpState :=
  { f with questions_asked := 0, questions_history := [] }

/-- `Session` dataclass from `models.py` (timestamps elided). -/
structure Session where
  session_id : String
  problem : Option Problem := none
  phase : SessionPhase := .waiting_problem
  messages : List Message := []
  user_code : Option Str := none
  guidance_state : GuidanceState := {}
  followup_state : FollowUpState := {}
deriving DecidableEq, Repr

/-- `Session.add_message`. -/
def Session.add_message (s : Session) (role : String) (content : Str) : Session :=
  { s with messages := s.messages ++ [⟨role, content⟩] }

/-- `Session.transition_to`. -/
def Session.transition_to (s : Session) (p : SessionPhase) : Session :=
  { s with phase := p }

/-- `Session.start_guidance`: reset the guidance tracker, enter GUIDING. -/
def Session.start_guidance (s : Session) : Session :=
  ({ s with guidance_state := s.guidance_state.reset }).transition_to .guiding

/-- `Session.start_followup`: reset the follow-up tracker, enter FOLLOWUP. -/
def Session.start_followup (s : Session) : Session :=
  ({ s with followup_state := s.followup_state.reset }).transition_to .followup

/-- `Session.start_teaching`. -/
def Session.start_teaching (s : Session) : Session :=
  s.transition_to .teaching

/-- `Session.complete`. -/
def Session.complete (s : Session) : Session :=
  s.transition_to .completed

/-- `Session.reset_for_new_problem` (messages are kept, per the source). -/
def Session.reset_for_new_problem (s : Session) : Session :=
  ({ s with problem := none, user_code := none,
            guidance_state := s.guidance_state.reset,
            followup_state := s.followup_state.reset }).transition_to .waiting_problem

/-- `create_session` from `models.py` (the uuid default is supplied by the caller). -/
def create_session (sid : String) : Session :=
  { session_id := sid }

/-! ## The collaborator oracle

`CoachEngine` methods call `self.llm.call_json` / `self.llm.call` at fixed
sites; prompts only carry context to the collaborator and do not influence
the engine's control flow, so each call site is modeled by one oracle field.
`.error e` models the underlying call raising (transport/provider failure),
`.ok d` a normalized structured response. -/

abbrev Er := Str

/-- One turn's worth of collaborator responses, one field per call site. -/
structure TurnOracle where
  intent_resp : Except Er PyDict
  code_eval : Except Er PyDict
  guidance : Except Er PyDict
  followup_eval : Except Er PyDict
  followup_q : Except Er PyDict
  help_req : Except Er PyDict
  teach_text : Except Er Str
  post_teach_text : Except Er Str

/-- `e` is the failure of one of the turn's collaborator calls. -/
def TurnOracle.IsErr (o : TurnOracle) (e : Er) : Prop :=
  o.intent_resp = .error e ∨ o.code_eval = .error e ∨ o.guidance = .error e ∨
  o.followup_eval = .error e ∨ o.followup_q = .error e ∨ o.help_req = .error e ∨
  o.teach_text = .error e ∨ o.post_teach_text = .error e

/-! ## Coach engine (src/coach_engine.py)

Each handler returns the session state reached so far together with either
the reply text (`.ok`) or the propagated collaborator failure (`.error`),
mirroring Python in-place mutation plus exception propagation. -/

/-- Skip keywords from `CoachEngine._recognize_intent`. -/
def skip_keywords : List Str :=
  ["跳过", "换题", "skip", "next", "下一题"].map String.toList

/-- Help keywords from `CoachEngine._recognize_intent`. -/
def help_keywords : List Str :=
  ["帮助", "提示", "hint", "help", "不会", "不知道", "给我提示", "怎么做"].map String.toList

/-- Code-indicator substrings from `CoachEngine._recognize_intent`. -/
def code_indicators : List Str :=
  ["def ", "function", "class ", "for ", "while ", "if ", "return", "=>",
   "\x60\x60\x60"].map String.toList

/-- `UserIntent(intent_str)` with the `ValueError → OTHER` fallback. -/
def parse_user_intent (v : PyVal) : UserIntent :=
  if pyEqStr v "submit_code".toList then .submit_code
  else if pyEqStr v "ask_for_help".toList then .ask_for_help
  else if pyEqStr v "answer_question".toList then .answer_question
  else if pyEqStr v "ask_question".toList then .ask_question
  else if pyEqStr v "skip_problem".toList then .skip_problem
  else if pyEqStr v "other".toList then .other
  else .other

/-- `CoachEngine._recognize_intent`: keyword tiers (skip, help on the
lowercased stripped input; code indicators on the raw input), then the
collaborator fallback. The session argument of the Python method only feeds
the prompt and is elided. -/
def recognize_intent (o : TurnOracle) (user_input : Str) : Except Er (UserIntent × Str) :=
  let input_lower := pyTrim (pyLower user_input)
  if skip_keywords.any (fun kw => strContains input_lower kw) then
    .ok (.skip_problem, [])
  else if help_keywords.any (fun kw => strContains input_lower kw) then
    .ok (.ask_for_help, [])
  else if code_indicators.any (fun ind => strContains user_input ind) then
    .ok (.submit_code, [])
  else
    match o.intent_resp with
    | .error e => .error e
    | .ok resp =>
      .ok (parse_user_intent (resp.getD "intent" (.vstr "other".toList)),
           pyStr (resp.getD "reply" (.vstr [])))

/-- Default question in `CoachEngine._generate_followup_question`. -/
def default_followup_question : Str :=
  "你能解释一下你的算法的时间复杂度吗？".toList

/-- `CoachEngine._generate_followup_question`: ask the collaborator for the
next question, record it in the tracker, return it. -/
def generate_followup_question (o : TurnOracle) (s : Session) : Session × Except Er Str :=
  match o.followup_q with
  | .error e => (s, .error e)
  | .ok resp =>
    let question := pyStr (resp.getD "question" (.vstr default_followup_question))
    ({ s with followup_state := s.followup_state.add_question question }, .ok question)

/-- `CoachEngine._generate_teaching` (plain-text collaborator call). -/
def generate_teaching (o : TurnOracle) : Except Er Str := o.teach_text

/-- Fixed completion summary from `CoachEngine._generate_completion`. -/
def completion_text : Str :=
  "🎉 太棒了！你已经完成了这道题！\n\n**你的表现：**\n- 代码正确\n- 完成了所有追问\n\n继续保持！准备好下一道题了吗？".toList

/-- `CoachEngine._evaluate_and_respond`: store the code, ask the collaborator
to evaluate; `correct` starts FOLLOWUP and concatenates the first generated
question onto the evaluation reply, anything else starts GUIDING and returns
the reply alone. -/
def evaluate_and_respond (o : TurnOracle) (s : Session) (user_input : Str) :
    Session × Except Er Str :=
  let s := { s with user_code := some user_input }
  match o.code_eval with
  | .error e => (s, .error e)
  | .ok resp =>
    let evaluation := resp.getD "evaluation" (.vstr "incorrect".toList)
    let replyV := resp.getD "reply" (.vstr [])
    let reply := pyStr replyV
    if pyEqStr evaluation "correct".toList then
      let s := s.start_followup
      match generate_followup_question o s with
      | (s1, .error e) => (s1, .error e)
      | (s1, .ok first_q) =>
        (s1, .ok (if pyTruthy replyV then reply ++ "\n\n".toList ++ first_q else first_q))
    else
      (s.start_guidance, .ok reply)

/-- Default reply in `CoachEngine._handle_help_request`. -/
def help_default_reply : Str :=
  "让我们一步步来。首先，你对这道题的第一反应是什么？".toList

/-- `CoachEngine._handle_help_request`: collaborator call, then one attempt
increment, then the reply. -/
def handle_help_request (o : TurnOracle) (s : Session) : Session × Except Er Str :=
  match o.help_req with
  | .error e => (s, .error e)
  | .ok resp =>
    let s := { s with guidance_state := (s.guidance_state.increment_attempt).1 }
    (s, .ok (pyStr (resp.getD "reply" (.vstr help_default_reply))))

/-- `CoachEngine._handle_skip`: enter TEACHING, generate the teaching text,
then mark the session COMPLETED and wrap the text in the skip template. -/
def handle_skip (o : TurnOracle) (s : Session) : Session × Except Er Str :=
  let s := s.start_teaching
  match generate_teaching o with
  | .error e => (s, .error e)
  | .ok teaching =>
    let s := s.complete
    (s, .ok ("没问题，让我先给你讲解一下这道题：\n\n".toList ++ teaching ++
             "\n\n准备好下一道题了吗？".toList))

/-- `CoachEngine._handle_waiting_problem`. -/
def handle_waiting_problem (s : Session) : Session × Except Er Str :=
  (s, .ok "请先选择一道题目开始练习。".toList)

/-- `CoachEngine._handle_waiting_code`: classify intent, then dispatch to
code evaluation, guidance entry, skip, or the intent reply. -/
def handle_waiting_code (o : TurnOracle) (s : Session) (user_input : Str) :
    Session × Except Er Str :=
  match recognize_intent o user_input with
  | .error e => (s, .error e)
  | .ok (intent, intent_reply) =>
    match intent with
    | .submit_code => evaluate_and_respond o s user_input
    | .ask_for_help => handle_help_request o s.start_guidance
    | .skip_problem => handle_skip o s
    | _ => (s, .ok intent_reply)

/-- Default reply of the guidance turn in `CoachEngine._handle_guiding`. -/
def guidance_default_reply : Str := "让我们换个角度想想...".toList

/-- `CoachEngine._handle_guiding`: teaching on exhausted attempts, re-run
intent classification, otherwise one guided turn with an attempt increment;
a false `user_on_right_track` together with a now-exhausted counter moves to
TEACHING. -/
def handle_guiding (o : TurnOracle) (s : Session) (user_input : Str) :
    Session × Except Er Str :=
  if s.guidance_state.is_exhausted then
    let s := s.start_teaching
    match generate_teaching o with
    | .error e => (s, .error e)
    | .ok t => (s, .ok t)
  else
    match recognize_intent o user_input with
    | .error e => (s, .error e)
    | .ok (intent, _) =>
      if intent = .submit_code then evaluate_and_respond o s user_input
      else if intent = .skip_problem then handle_skip o s
      else
        match o.guidance with
        | .error e => (s, .error e)
        | .ok resp =>
          let reply := pyStr (resp.getD "reply" (.vstr guidance_default_reply))
          let on_track := pyTruthy (resp.getD "user_on_right_track" (.vbool false))
          let inc := s.guidance_state.increment_attempt
          let s := { s with guidance_state := inc.1 }
          if on_track then (s, .ok reply)
          else if !inc.2 then
            let s := s.start_teaching
            match generate_teaching o with
            | .error e => (s, .error e)
            | .ok t => (s, .ok t)
          else (s, .ok reply)

/-- Celebration line appended by `CoachEngine._handle_followup` on completion. -/
def followup_closing_line : Str :=
  "\n\n太棒了！你已经完成了这道题的所有挑战。做得很好！".toList

/-- `CoachEngine._handle_followup`: first entry generates the first question;
later turns evaluate the answer, append a supplied `next_question` while the
tracker is below its total, and complete (with a celebratory line when the
reply lacks a closing remark) once the tracker is full. -/
def handle_followup (o : TurnOracle) (s : Session) (_user_input : Str) :
    Session × Except Er Str :=
  let current_q_num := s.followup_state.questions_asked
  if s.followup_state.is_complete then
    (s.complete, .ok completion_text)
  else if current_q_num = 0 then
    generate_followup_question o s
  else
    match o.followup_eval with
    | .error e => (s, .error e)
    | .ok resp =>
      let reply := pyStr (resp.getD "reply" (.vstr []))
      let s1 :=
        if current_q_num < s.followup_state.total_questions then
          let next_qV := resp.getD "next_question" (.vstr [])
          if pyTruthy next_qV then
            { s with followup_state := s.followup_state.add_question (pyStr next_qV) }
          else s
        else s
      if s1.followup_state.is_complete then
        let s2 := s1.complete
        if !strContains reply "恭喜".toList && !strContains reply "完成".toList then
          (s2, .ok (reply ++ followup_closing_line))
        else (s2, .ok reply)
      else (s1, .ok reply)

/-- `CoachEngine._handle_teaching`, via `_answer_post_teaching_question`
(a plain-text collaborator call; the phase is untouched). -/
def handle_teaching (o : TurnOracle) (s : Session) : Session × Except Er Str :=
  match o.post_teach_text with
  | .error e => (s, .error e)
  | .ok t => (s, .ok t)

/-- Fixed reply of `CoachEngine._handle_completed`. -/
def completed_reply : Str :=
  "这道题我们已经讨论完了。你想继续练习下一道题吗？".toList

/-- `CoachEngine._handle_completed`. -/
def handle_completed (s : Session) : Session × Except Er Str :=
  (s, .ok completed_reply)

/-- `CoachEngine.process_input` for a known session: append the user message,
dispatch on the phase, and append the assistant reply only when the handler
succeeds; a handler failure propagates with the state reached so far. -/
def process_input (o : TurnOracle) (s : Session) (user_input : Str) :
    Session × Except Er Str :=
  let s := s.add_message "user" user_input
  let step :=
    match s.phase with
    | .waiting_problem => handle_waiting_problem s
    | .waiting_code => handle_waiting_code o s user_input
    | .guiding => handle_guiding o s user_input
    | .followup => handle_followup o s user_input
    | .teaching => handle_teaching o s
    | .completed => handle_completed s
  match step with
  | (s1, .error e) => (s1, .error e)
  | (s1, .ok reply) => (s1.add_message "assistant" reply, .ok reply)

/-- `CoachEngine._generate_opening` (the f-string template). -/
def generate_opening (p : Problem) : Str :=
  "好的，让我们来看这道题：\n\n**".toList ++ p.title ++ "**\n\n".toList ++
  p.description ++
  "\n\n你可以先想一想，然后把你的代码或思路告诉我。如果需要提示，随时可以问我！".toList

/-- `CoachEngine.set_problem` for a known session: install the problem, move
to WAITING_CODE, record and return the opening message. -/
def set_problem (s : Session) (p : Problem) : Session × Str :=
  let s := ({ s with problem := some p }).transition_to .waiting_code
  let opening := generate_opening p
  (s.add_message "assistant" opening, opening)

/-! ## Reachable session states

A session is operated on through `create_session`, `set_problem`,
`process_input` (with arbitrary collaborator behavior and user input) and
`reset_for_new_problem`; `Reachable` closes the initial state under these. -/

inductive Reachable : Session → Prop where
  | init : ∀ sid, Reachable (create_session sid)
  | assign : ∀ s p, Reachable s → Reachable (set_problem s p).1
  | turn : ∀ s o input, Reachable s → Reachable (process_input o s input).1
  | reset : ∀ s, Reachable s → Reachable s.reset_for_new_problem

/-- Guidance-tracker invariant (spec §3, GuidanceTracker). -/
def GInv (g : GuidanceState) : Prop :=
  g.max_attempts = 5 ∧ g.attempt_count ≤ 5 ∧
  1 ≤ g.current_hint_level ∧ g.current_hint_level ≤ 3

/-- Follow-up-tracker invariant (spec §3, FollowUpTracker). -/
def FInv (f : FollowUpState) : Prop :=
  f.total_questions = 3 ∧ f.questions_asked ≤ 3 ∧
  f.questions_asked = f.questions_history.length

/-- Combined session invariant. -/
def SInv (s : Session) : Prop := GInv s.guidance_state ∧ FInv s.followup_state

/-! ## Response normalizer (src/llm_client.py, `QwenClient._parse_json`)

`json.loads` is Python-stdlib code external to this repository; it is taken
as a parameter `loads : Str → Option PyDict` (`none` models a raised
`JSONDecodeError`). The four extraction strategies and the fallback mapping
are the repository's own code and are embedded below. -/

/-- The fence marker of the two extraction regexes. -/
def fence_marker : Str := "\x60\x60\x60".toList

/-- The tagged opener of the first extraction regex. -/
def json_fence_opener : Str := "\x60\x60\x60json".toList

/-- Interior of the first fenced block opened by `opener`, trimmed: the
first-match-lazy semantics of `re.search(opener + r'\s*(.*?)\s*' + fence,
text, re.DOTALL)`: earliest opener occurrence, closed by the first later
fence marker, whitespace stripped from both ends of the interior. -/
def extract_block (opener : Str) (text : Str) : Option Str :=
  match strFind text opener with
  | none => none
  | some i =>
    let rest := text.drop (i + opener.length)
    match strFind rest fence_marker with
    | none => none
    | some j => some (pyTrim (rest.take j))

/-- Strategy (a): `json.loads` on the whole text. -/
def strategy_whole (loads : Str → Option PyDict) (text : Str) : Option PyDict :=
  loads text

/-- Strategy (b): parse the interior of a ` ```json `-tagged fenced block. -/
def strategy_tagged (loads : Str → Option PyDict) (text : Str) : Option PyDict :=
  (extract_block json_fence_opener text).bind loads

/-- Strategy (c): parse the interior of an untagged fenced block. -/
def strategy_untagged (loads : Str → Option PyDict) (text : Str) : Option PyDict :=
  (extract_block fence_marker text).bind loads

/-- Strategy (d): parse `text[text.find('\x7b') : text.rfind('\x7d') + 1]`. -/
def strategy_braces (loads : Str → Option PyDict) (text : Str) : Option PyDict :=
  match strFind text ['\x7b'], strRFindChar text '\x7d' with
  | some a, some b => loads (strSlice text a (b + 1))
  | _, _ => none

/-- The fallback mapping of `_parse_json`. -/
def parse_fallback (text : Str) : PyDict :=
  [("reply", .vstr text), ("error", .vstr "json_parse_failed".toList)]

/-- `QwenClient._parse_json`: first success of the four strategies, else the
fallback mapping; total by construction. -/
def parse_json (loads : Str → Option PyDict) (text : Str) : PyDict :=
  match strategy_whole loads text with
  | some d => d
  | none =>
    match strategy_tagged loads text with
    | some d => d
    | none =>
      match strategy_untagged loads text with
      | some d => d
      | none =>
        match strategy_braces loads text with
        | some d => d
        | none => parse_fallback text

/-! ## Concrete data used by witnesses and counterexamples -/

deriving instance DecidableEq for Except

/-- An oracle whose every call fails; used where a claim exercises only the
keyword tiers or a failing collaborator. -/
def oracle_fail : TurnOracle :=
  { intent_resp := .error "boom".toList, code_eval := .error "boom".toList,
    guidance := .error "boom".toList, followup_eval := .error "boom".toList,
    followup_q := .error "boom".toList, help_req := .error "boom".toList,
    teach_text := .error "boom".toList, post_teach_text := .error "boom".toList }

/-- A session mid-FOLLOWUP with two of three questions asked (Scenario E). -/
def session_followup2 : Session :=
  { session_id := "s"
    phase := .followup
    followup_state := { questions_asked := 2, total_questions := 3,
                        questions_history := ["Q1".toList, "Q2".toList] } }

/-- Follow-up evaluation verdict `answer_quality=good` with no
`next_question` field (Scenario E's stub). -/
def followup_eval_good_no_next : PyDict :=
  [("answer_quality", .vstr "good".toList), ("reply", .vstr "分析正确。".toList)]

/-- Follow-up evaluation verdict `answer_quality=good` with a
`next_question`. -/
def followup_eval_good_with_next : PyDict :=
  [("answer_quality", .vstr "good".toList), ("reply", .vstr "分析正确。".toList),
   ("next_question", .vstr "Q3".toList)]

/-- Oracle for the FOLLOWUP scenarios: only the follow-up-evaluation call
succeeds, returning `followup_eval_good_no_next`. -/
def oracle_fup_no_next : TurnOracle :=
  { oracle_fail with followup_eval := .ok followup_eval_good_no_next }

/-- Oracle for the amended FOLLOWUP scenario, returning
`followup_eval_good_with_next`. -/
def oracle_fup_with_next : TurnOracle :=
  { oracle_fail with followup_eval := .ok followup_eval_good_with_next }

/-- A fresh session placed in the TEACHING phase. -/
def session_teaching : Session :=
  { session_id := "s", phase := .teaching }

/-- A fresh session placed in the COMPLETED phase. -/
def session_completed : Session :=
  { session_id := "s", phase := .completed }

/-- A fresh session awaiting code. -/
def session_waiting_code : Session :=
  { session_id := "s", phase := .waiting_code }

/-- A code evaluation verdict `correct` with a reply. -/
def eval_correct_dict : PyDict :=
  [("evaluation", .vstr "correct".toList), ("reply", .vstr "代码正确！".toList)]

/-- A code evaluation verdict `partial` with a reply. -/
def eval_partial_dict : PyDict :=
  [("evaluation", .vstr "partial".toList), ("reply", .vstr "还差一点。".toList)]

/-- A follow-up question generation response. -/
def followup_q_dict : PyDict := [("question", .vstr "时间复杂度是多少？".toList)]

/-- Oracle for a correct code submission followed by the first follow-up
question. -/
def oracle_correct_code : TurnOracle :=
  { oracle_fail with code_eval := .ok eval_correct_dict,
                     followup_q := .ok followup_q_dict }

/-- Oracle for a non-correct code submission. -/
def oracle_partial_code : TurnOracle :=
  { oracle_fail with code_eval := .ok eval_partial_dict }

/-- A guidance-turn response with `user_on_right_track=false`. -/
def guidance_off_track_dict : PyDict :=
  [("user_on_right_track", .vbool false), ("reply", .vstr "再想想。".toList)]

/-- A guidance-turn response with `user_on_right_track=true`. -/
def guidance_on_track_dict : PyDict :=
  [("user_on_right_track", .vbool true), ("reply", .vstr "方向对了！".toList)]

/-- Oracle for a guided turn that stays off track, with teaching text
available. -/
def oracle_guiding_off : TurnOracle :=
  { oracle_fail with guidance := .ok guidance_off_track_dict,
                     teach_text := .ok "这是参考解法。".toList,
                     intent_resp := .ok [("intent", .vstr "answer_question".toList)] }

/-- Oracle for a guided turn that is on track. -/
def oracle_guiding_on : TurnOracle :=
  { oracle_fail with guidance := .ok guidance_on_track_dict,
                     intent_resp := .ok [("intent", .vstr "answer_question".toList)] }

/-- A session in GUIDING with four attempts used (one below the maximum). -/
def session_guiding4 : Session :=
  { session_id := "s"
    phase := .guiding
    guidance_state := { attempt_count := 4, current_hint_level := 2 } }

/-- A session in GUIDING with all five attempts used. -/
def session_guiding5 : Session :=
  { session_id := "s"
    phase := .guiding
    guidance_state := { attempt_count := 5, current_hint_level := 3 } }

/-- An intent-classification response with an unrecognized tag. -/
def oracle_intent_other : TurnOracle :=
  { oracle_fail with intent_resp := .ok [("intent", .vstr "nonsense".toList)] }

/-! ## Helper lemmas: no handler touches the transcript -/

theorem messages_gfq (o : TurnOracle) (s : Session) :
    ((generate_followup_question o s).1).messages = s.messages := by
  unfold generate_followup_question
  rcases o.followup_q with e | resp <;> rfl

theorem messages_ear (o : TurnOracle) (s : Session) (u : Str) :
    ((evaluate_and_respond o s u).1).messages = s.messages := by
  unfold evaluate_and_respond
  rcases hc : o.code_eval with e | resp
  · rfl
  · simp only
    split
    · rcases hg : generate_followup_question o
          (({ s with user_code := some u } : Session).start_followup) with ⟨s1, r⟩
      have h1 : s1.messages = s.messages := by
        have h2 := messages_gfq o (({ s with user_code := some u } : Session).start_followup)
        rw [hg] at h2
        exact h2
      rcases r with e | q <;> simp [hg, h1]
    · rfl

theorem messages_help (o : TurnOracle) (s : Session) :
    ((handle_help_request o s).1).messages = s.messages := by
  unfold handle_help_request
  rcases o.help_req with e | resp <;> rfl

theorem messages_skip (o : TurnOracle) (s : Session) :
    ((handle_skip o s).1).messages = s.messages := by
  unfold handle_skip generate_teaching
  rcases o.teach_text with e | t <;> rfl

theorem messages_wc (o : TurnOracle) (s : Session) (u : Str) :
    ((handle_waiting_code o s u).1).messages = s.messages := by
  unfold handle_waiting_code
  rcases hr : recognize_intent o u with e | ⟨intent, reply⟩
  · rfl
  · rcases intent <;> simp only <;>
      first
        | exact messages_ear o s u
        | exact messages_help o s.start_guidance
        | exact messages_skip o s
        | rfl

theorem messages_guiding (o : TurnOracle) (s : Session) (u : Str) :
    ((handle_guiding o s u).1).messages = s.messages := by
  unfold handle_guiding
  split
  · unfold generate_teaching
    rcases o.teach_text with e | t <;> rfl
  · rcases hr : recognize_intent o u with e | ⟨intent, reply⟩
    · rfl
    · simp only
      split
      · exact messages_ear o s u
      · split
        · exact messages_skip o s
        · rcases o.guidance with e | resp
          · rfl
          · simp only
            split
            · rfl
            · split
              · unfold generate_teaching
                rcases o.teach_text with e | t <;> rfl
              · rfl

theorem messages_followup (o : TurnOracle) (s : Session) (u : Str) :
    ((handle_followup o s u).1).messages = s.messages := by
  unfold handle_followup
  dsimp only
  split
  · rfl
  · split
    · exact messages_gfq o s
    · rcases o.followup_eval with e | resp
      · rfl
      · dsimp only
        repeat' split
        all_goals rfl

/-! ## Helper lemmas: a propagated error is a collaborator failure -/

theorem isErr_gfq {o : TurnOracle} {s : Session} {e : Er}
    (h : (generate_followup_question o s).2 = .error e) : o.IsErr e := by
  unfold generate_followup_question at h
  rcases hq : o.followup_q with e' | resp <;> rw [hq] at h <;>
    simp_all [TurnOracle.IsErr]

theorem isErr_ear {o : TurnOracle} {s : Session} {u : Str} {e : Er}
    (h : (evaluate_and_respond o s u).2 = .error e) : o.IsErr e := by
  unfold evaluate_and_respond at h
  rcases hc : o.code_eval with e' | resp <;> rw [hc] at h
  · simp only at h
    cases h
    exact .inr (.inl hc)
  · dsimp only at h
    split at h
    · rcases hg : generate_followup_question o
          (({ s with user_code := some u } : Session).start_followup) with ⟨s1, r⟩
      rw [hg] at h
      rcases r with e2 | q <;> simp only at h
      · cases h
        have h2 : (generate_followup_question o
            (({ s with user_code := some u } : Session).start_followup)).2 = .error e := by
          rw [hg]
        exact isErr_gfq h2
      · cases h
    · cases h

theorem isErr_help {o : TurnOracle} {s : Session} {e : Er}
    (h : (handle_help_request o s).2 = .error e) : o.IsErr e := by
  unfold handle_help_request at h
  rcases hq : o.help_req with e' | resp <;> rw [hq] at h <;>
    simp_all [TurnOracle.IsErr]

theorem isErr_skip {o : TurnOracle} {s : Session} {e : Er}
    (h : (handle_skip o s).2 = .error e) : o.IsErr e := by
  unfold handle_skip generate_teaching at h
  rcases hq : o.teach_text with e' | t <;> rw [hq] at h <;>
    simp_all [TurnOracle.IsErr]

theorem isErr_recognize {o : TurnOracle} {u : Str} {e : Er}
    (h : recognize_intent o u = .error e) : o.intent_resp = .error e := by
  unfold recognize_intent at h
  rcases hq : o.intent_resp with e' | resp <;> rw [hq] at h <;> dsimp only at h <;>
    repeat' split at h
  all_goals first | (cases h; rfl) | (cases h; exact hq) | simp at h

theorem isErr_wc {o : TurnOracle} {s : Session} {u : Str} {e : Er}
    (h : (handle_waiting_code o s u).2 = .error e) : o.IsErr e := by
  unfold handle_waiting_code at h
  rcases hr : recognize_intent o u with e' | ⟨intent, reply⟩ <;> rw [hr] at h
  · simp only at h
    cases h
    exact .inl (isErr_recognize hr)
  · rcases intent <;> simp only at h <;>
      first
        | exact isErr_ear h
        | exact isErr_help h
        | exact isErr_skip h
        | cases h

theorem isErr_guiding {o : TurnOracle} {s : Session} {u : Str} {e : Er}
    (h : (handle_guiding o s u).2 = .error e) : o.IsErr e := by
  unfold handle_guiding at h
  split at h
  · unfold generate_teaching at h
    rcases hq : o.teach_text with e' | t <;> rw [hq] at h <;>
      simp_all [TurnOracle.IsErr]
  · rcases hr : recognize_intent o u with e' | ⟨intent, reply⟩ <;> rw [hr] at h
    · simp only at h
      cases h
      exact .inl (isErr_recognize hr)
    · simp only at h
      split at h
      · exact isErr_ear h
      · split at h
        · exact isErr_skip h
        · rcases hg : o.guidance with e' | resp <;> rw [hg] at h
          · simp only at h
            cases h
            exact .inr (.inr (.inl hg))
          · dsimp only at h
            split at h
            · cases h
            · split at h
              · unfold generate_teaching at h
                rcases hq : o.teach_text with e2 | t <;> rw [hq] at h <;>
                  simp_all [TurnOracle.IsErr]
              · cases h

theorem isErr_followup {o : TurnOracle} {s : Session} {u : Str} {e : Er}
    (h : (handle_followup o s u).2 = .error e) : o.IsErr e := by
  unfold handle_followup at h
  dsimp only at h
  split at h
  · cases h
  · split at h
    · exact isErr_gfq h
    · rcases hq : o.followup_eval with e' | resp <;> rw [hq] at h
      · simp only at h
        cases h
        exact .inr (.inr (.inr (.inl hq)))
      · dsimp only at h
        repeat' split at h
        all_goals cases h

theorem isErr_teaching {o : TurnOracle} {s : Session} {e : Er}
    (h : (handle_teaching o s).2 = .error e) : o.IsErr e := by
  unfold handle_teaching at h
  rcases hq : o.post_teach_text with e' | t <;> rw [hq] at h <;>
    simp_all [TurnOracle.IsErr]

theorem isErr_process {o : TurnOracle} {s : Session} {u : Str} {e : Er}
    (h : (process_input o s u).2 = .error e) : o.IsErr e := by
  unfold process_input at h
  dsimp only at h
  cases hp : (s.add_message "user" u).phase <;> rw [hp] at h <;> dsimp only at h
  case waiting_problem =>
    rcases hs : handle_waiting_problem (s.add_message "user" u) with ⟨s1, r⟩
    rw [hs] at h
    rcases r with e' | rep <;> dsimp only at h
    · simp [handle_waiting_problem] at hs
    · cases h
  case waiting_code =>
    rcases hs : handle_waiting_code o (s.add_message "user" u) u with ⟨s1, r⟩
    rw [hs] at h
    rcases r with e' | rep <;> dsimp only at h
    · cases h
      exact isErr_wc (by rw [hs])
    · cases h
  case guiding =>
    rcases hs : handle_guiding o (s.add_message "user" u) u with ⟨s1, r⟩
    rw [hs] at h
    rcases r with e' | rep <;> dsimp only at h
    · cases h
      exact isErr_guiding (by rw [hs])
    · cases h
  case followup =>
    rcases hs : handle_followup o (s.add_message "user" u) u with ⟨s1, r⟩
    rw [hs] at h
    rcases r with e' | rep <;> dsimp only at h
    · cases h
      exact isErr_followup (by rw [hs])
    · cases h
  case teaching =>
    rcases hs : handle_teaching o (s.add_message "user" u) with ⟨s1, r⟩
    rw [hs] at h
    rcases r with e' | rep <;> dsimp only at h
    · cases h
      exact isErr_teaching (by rw [hs])
    · cases h
  case completed =>
    rcases hs : handle_completed (s.add_message "user" u) with ⟨s1, r⟩
    rw [hs] at h
    rcases r with e' | rep <;> dsimp only at h
    · simp [handle_completed] at hs
    · cases h

/-! ## Transcript shape of a processed turn -/

theorem process_messages (o : TurnOracle) (s : Session) (u : Str) :
    ((process_input o s u).1.messages = s.messages ++ [⟨"user", u⟩] ∧
      ∃ e, (process_input o s u).2 = .error e) ∨
    (∃ t, (process_input o s u).2 = .ok t ∧
      (process_input o s u).1.messages =
        s.messages ++ [⟨"user", u⟩, ⟨"assistant", t⟩]) := by
  unfold process_input
  dsimp only
  have hmsg : (s.add_message "user" u).messages = s.messages ++ [⟨"user", u⟩] := rfl
  cases hp : (s.add_message "user" u).phase <;> dsimp only
  case waiting_problem =>
    rcases hs : handle_waiting_problem (s.add_message "user" u) with ⟨s1, r⟩
    have hm := congrArg (fun p => Prod.fst p |>.messages) hs
    simp only [handle_waiting_problem] at hm
    rcases r with e | t <;> dsimp only
    · exact .inl ⟨by rw [← hm, hmsg], e, rfl⟩
    · exact .inr ⟨t, rfl, by simp [Session.add_message, ← hm, hmsg]⟩
  case waiting_code =>
    rcases hs : handle_waiting_code o (s.add_message "user" u) u with ⟨s1, r⟩
    have hm : s1.messages = s.messages ++ [⟨"user", u⟩] := by
      have h2 := messages_wc o (s.add_message "user" u) u
      rw [hs] at h2
      rw [h2, hmsg]
    rcases r with e | t <;> dsimp only
    · exact .inl ⟨hm, e, rfl⟩
    · exact .inr ⟨t, rfl, by simp [Session.add_message, hm]⟩
  case guiding =>
    rcases hs : handle_guiding o (s.add_message "user" u) u with ⟨s1, r⟩
    have hm : s1.messages = s.messages ++ [⟨"user", u⟩] := by
      have h2 := messages_guiding o (s.add_message "user" u) u
      rw [hs] at h2
      rw [h2, hmsg]
    rcases r with e | t <;> dsimp only
    · exact .inl ⟨hm, e, rfl⟩
    · exact .inr ⟨t, rfl, by simp [Session.add_message, hm]⟩
  case followup =>
    rcases hs : handle_followup o (s.add_message "user" u) u with ⟨s1, r⟩
    have hm : s1.messages = s.messages ++ [⟨"user", u⟩] := by
      have h2 := messages_followup o (s.add_message "user" u) u
      rw [hs] at h2
      rw [h2, hmsg]
    rcases r with e | t <;> dsimp only
    · exact .inl ⟨hm, e, rfl⟩
    · exact .inr ⟨t, rfl, by simp [Session.add_message, hm]⟩
  case teaching =>
    rcases hs : handle_teaching o (s.add_message "user" u) with ⟨s1, r⟩
    have hm : s1.messages = s.messages ++ [⟨"user", u⟩] := by
      have h2 : (handle_teaching o (s.add_message "user" u)).1.messages =
          (s.add_message "user" u).messages := by
        unfold handle_teaching
        rcases o.post_teach_text with e | t <;> rfl
      rw [hs] at h2
      rw [h2, hmsg]
    rcases r with e | t <;> dsimp only
    · exact .inl ⟨hm, e, rfl⟩
    · exact .inr ⟨t, rfl, by simp [Session.add_message, hm]⟩
  case completed =>
    rcases hs : handle_completed (s.add_message "user" u) with ⟨s1, r⟩
    have hm := congrArg (fun p => Prod.fst p |>.messages) hs
    simp only [handle_completed] at hm
    rcases r with e | t <;> dsimp only
    · exact .inl ⟨by rw [← hm, hmsg], e, rfl⟩
    · exact .inr ⟨t, rfl, by simp [Session.add_message, ← hm, hmsg]⟩

/-! ## State-shape enumeration of each handler

Each lemma lists the session states a handler can leave behind, with the
guard that protected any tracker mutation; every tracker fact below follows
from these shapes. -/

theorem gfq_cases (o : TurnOracle) (s : Session) :
    (generate_followup_question o s).1 = s ∨
    ∃ q, (generate_followup_question o s).1 =
      { s with followup_state := s.followup_state.add_question q } := by
  unfold generate_followup_question
  rcases o.followup_q with e | resp
  · exact .inl rfl
  · exact .inr ⟨_, rfl⟩

theorem ear_cases (o : TurnOracle) (s : Session) (u : Str) :
    (evaluate_and_respond o s u).1 = { s with user_code := some u } ∨
    (evaluate_and_respond o s u).1 =
      ({ s with user_code := some u } : Session).start_guidance ∨
    (evaluate_and_respond o s u).1 =
      ({ s with user_code := some u } : Session).start_followup ∨
    ∃ q, (evaluate_and_respond o s u).1 =
      { ({ s with user_code := some u } : Session).start_followup with
        followup_state :=
          (({ s with user_code := some u } : Session).start_followup).followup_state.add_question q } := by
  unfold evaluate_and_respond
  rcases o.code_eval with e | resp
  · exact .inl rfl
  · dsimp only
    split
    · rcases hg : generate_followup_question o
          (({ s with user_code := some u } : Session).start_followup) with ⟨s1, r⟩
      have hc := gfq_cases o (({ s with user_code := some u } : Session).start_followup)
      rw [hg] at hc
      rcases r with e | q <;> dsimp only <;>
        rcases hc with hc | ⟨q2, hc⟩
      · exact .inr (.inr (.inl hc))
      · exact .inr (.inr (.inr ⟨q2, hc⟩))
      · exact .inr (.inr (.inl hc))
      · exact .inr (.inr (.inr ⟨q2, hc⟩))
    · exact .inr (.inl rfl)

theorem help_cases (o : TurnOracle) (s : Session) :
    (handle_help_request o s).1 = s ∨
    (handle_help_request o s).1 =
      { s with guidance_state := (s.guidance_state.increment_attempt).1 } := by
  unfold handle_help_request
  rcases o.help_req with e | resp
  · exact .inl rfl
  · exact .inr rfl

theorem skip_cases (o : TurnOracle) (s : Session) :
    (handle_skip o s).1 = s.start_teaching ∨
    (handle_skip o s).1 = s.start_teaching.complete := by
  unfold handle_skip generate_teaching
  rcases o.teach_text with e | t
  · exact .inl rfl
  · exact .inr rfl

theorem wc_cases (o : TurnOracle) (s : Session) (u : Str) :
    (handle_waiting_code o s u).1 = s ∨
    (handle_waiting_code o s u).1 = { s with user_code := some u } ∨
    (handle_waiting_code o s u).1 =
      ({ s with user_code := some u } : Session).start_guidance ∨
    (handle_waiting_code o s u).1 =
      ({ s with user_code := some u } : Session).start_followup ∨
    (∃ q, (handle_waiting_code o s u).1 =
      { ({ s with user_code := some u } : Session).start_followup with
        followup_state :=
          (({ s with user_code := some u } : Session).start_followup).followup_state.add_question q }) ∨
    (handle_waiting_code o s u).1 = s.start_guidance ∨
    (handle_waiting_code o s u).1 =
      { s.start_guidance with
        guidance_state := ((s.start_guidance).guidance_state.increment_attempt).1 } ∨
    (handle_waiting_code o s u).1 = s.start_teaching ∨
    (handle_waiting_code o s u).1 = s.start_teaching.complete := by
  unfold handle_waiting_code
  rcases recognize_intent o u with e | ⟨intent, reply⟩
  · exact .inl rfl
  · rcases intent <;> dsimp only
    · rcases ear_cases o s u with h | h | h | h
      · exact .inr (.inl h)
      · exact .inr (.inr (.inl h))
      · exact .inr (.inr (.inr (.inl h)))
      · exact .inr (.inr (.inr (.inr (.inl h))))
    · rcases help_cases o s.start_guidance with h | h
      · exact .inr (.inr (.inr (.inr (.inr (.inl h)))))
      · exact .inr (.inr (.inr (.inr (.inr (.inr (.inl h))))))
    · exact .inl rfl
    · exact .inl rfl
    · rcases skip_cases o s with h | h
      · exact .inr (.inr (.inr (.inr (.inr (.inr (.inr (.inl h)))))))
      · exact .inr (.inr (.inr (.inr (.inr (.inr (.inr (.inr h)))))))
    · exact .inl rfl

theorem guiding_cases (o : TurnOracle) (s : Session) (u : Str) :
    (handle_guiding o s u).1 = s ∨
    (handle_guiding o s u).1 = s.start_teaching ∨
    (handle_guiding o s u).1 = { s with user_code := some u } ∨
    (handle_guiding o s u).1 =
      ({ s with user_code := some u } : Session).start_guidance ∨
    (handle_guiding o s u).1 =
      ({ s with user_code := some u } : Session).start_followup ∨
    (∃ q, (handle_guiding o s u).1 =
      { ({ s with user_code := some u } : Session).start_followup with
        followup_state :=
          (({ s with user_code := some u } : Session).start_followup).followup_state.add_question q }) ∨
    (handle_guiding o s u).1 = s.start_teaching.complete ∨
    (s.guidance_state.is_exhausted = false ∧
      ((handle_guiding o s u).1 =
        { s with guidance_state := (s.guidance_state.increment_attempt).1 } ∨
       (handle_guiding o s u).1 =
        ({ s with guidance_state := (s.guidance_state.increment_attempt).1 } : Session).start_teaching)) := by
  unfold handle_guiding
  split
  · unfold generate_teaching
    rcases o.teach_text with e | t
    · exact .inr (.inl rfl)
    · exact .inr (.inl rfl)
  · rename_i hx
    rcases recognize_intent o u with e | ⟨intent, reply⟩
    · exact .inl rfl
    · dsimp only
      split
      · rcases ear_cases o s u with h | h | h | h
        · exact .inr (.inr (.inl h))
        · exact .inr (.inr (.inr (.inl h)))
        · exact .inr (.inr (.inr (.inr (.inl h))))
        · exact .inr (.inr (.inr (.inr (.inr (.inl h)))))
      · split
        · rcases skip_cases o s with h | h
          · exact .inr (.inl h)
          · exact .inr (.inr (.inr (.inr (.inr (.inr (.inl h))))))
        · have hx2 : s.guidance_state.is_exhausted = false := by
            simp_all
          rcases o.guidance with e | resp
          · exact .inl rfl
          · dsimp only
            split
            · exact .inr (.inr (.inr (.inr (.inr (.inr (.inr ⟨hx2, .inl rfl⟩))))))
            · split
              · unfold generate_teaching
                rcases o.teach_text with e | t
                · exact .inr (.inr (.inr (.inr (.inr (.inr (.inr ⟨hx2, .inr rfl⟩))))))
                · exact .inr (.inr (.inr (.inr (.inr (.inr (.inr ⟨hx2, .inr rfl⟩))))))
              · exact .inr (.inr (.inr (.inr (.inr (.inr (.inr ⟨hx2, .inl rfl⟩))))))

theorem fup_cases (o : TurnOracle) (s : Session) (u : Str) :
    (handle_followup o s u).1 = s ∨
    (handle_followup o s u).1 = s.complete ∨
    (s.followup_state.questions_asked < s.followup_state.total_questions ∧
      ∃ q, (handle_followup o s u).1 =
          { s with followup_state := s.followup_state.add_question q } ∨
        (handle_followup o s u).1 =
          ({ s with followup_state := s.followup_state.add_question q } : Session).complete) := by
  unfold handle_followup
  dsimp only
  split
  · exact .inr (.inl rfl)
  · rename_i h0
    split
    · rename_i hq0
      rcases gfq_cases o s with h | ⟨q, h⟩
      · exact .inl h
      · refine .inr (.inr ⟨?_, q, .inl h⟩)
        unfold FollowUpState.is_complete at h0
        simp only [decide_eq_true_eq] at h0
        omega
    · rcases o.followup_eval with e | resp
      · exact .inl rfl
      · dsimp only
        split
        · rename_i hlt
          split
          · rename_i hnext
            split
            · split
              · exact .inr (.inr ⟨hlt, _, .inr rfl⟩)
              · exact .inr (.inr ⟨hlt, _, .inr rfl⟩)
            · exact .inr (.inr ⟨hlt, _, .inl rfl⟩)
          · exact .inl rfl
        · exact .inl rfl

/-! ## Tracker facts of one processed turn -/

theorem ginv_inc {g : GuidanceState} (h : GInv g) (hlt : g.attempt_count < 5) :
    GInv (g.increment_attempt).1 := by
  obtain ⟨h1, h2, h3, h4⟩ := h
  unfold GuidanceState.increment_attempt
  dsimp only
  split <;> refine ⟨h1, ?_, ?_, ?_⟩ <;> dsimp only <;> omega

/-- The four per-turn tracker facts relating a session `s` before a turn to
the session state `t` it leaves behind: invariant preservation, reset on
entry into GUIDING, reset on entry into FOLLOWUP, and a non-decreasing
follow-up counter outside (re-)entries. -/
def TFacts (s t : Session) : Prop :=
  (SInv s → SInv t) ∧
  (s.phase ≠ .guiding → t.phase = .guiding →
    t.guidance_state.attempt_count ≤ 1 ∧ t.guidance_state.current_hint_level = 1) ∧
  (s.phase ≠ .followup → t.phase = .followup →
    t.followup_state.questions_asked ≤ 1 ∧
    t.followup_state.questions_history.length = t.followup_state.questions_asked) ∧
  (s.followup_state.questions_asked ≤ t.followup_state.questions_asked ∨
    (t.phase = .followup ∧ t.followup_state.questions_asked ≤ 1))

theorem tfacts_keep {s t : Session} (h2 : t.guidance_state = s.guidance_state)
    (h3 : t.followup_state = s.followup_state)
    (hph : t.phase = s.phase ∨ (t.phase ≠ .guiding ∧ t.phase ≠ .followup)) :
    TFacts s t := by
  refine ⟨?_, ?_, ?_, ?_⟩
  · intro hs
    unfold SInv at *
    rw [h2, h3]
    exact hs
  · intro hne hg
    rcases hph with hph | ⟨hph, _⟩
    · rw [hph] at hg
      exact (hne hg).elim
    · exact (hph hg).elim
  · intro hne hf
    rcases hph with hph | ⟨_, hph⟩
    · rw [hph] at hf
      exact (hne hf).elim
    · exact (hph hf).elim
  · left
    rw [h3]

theorem tfacts_start_guidance {s t : Session}
    (h2 : t.guidance_state = s.guidance_state.reset)
    (h3 : t.followup_state = s.followup_state)
    (hph : t.phase = .guiding) : TFacts s t := by
  refine ⟨?_, ?_, ?_, ?_⟩
  · rintro ⟨⟨hm, _⟩, hf⟩
    refine ⟨?_, by rw [h3]; exact hf⟩
    rw [h2]
    unfold GInv GuidanceState.reset at *
    dsimp only
    exact ⟨hm, by omega, by omega, by omega⟩
  · intro _ _
    rw [h2]
    unfold GuidanceState.reset
    exact ⟨by dsimp only; omega, rfl⟩
  · intro _ hf
    rw [hph] at hf
    cases hf
  · left
    rw [h3]

theorem tfacts_help_inc {s t : Session}
    (h2 : t.guidance_state = (s.guidance_state.reset.increment_attempt).1)
    (h3 : t.followup_state = s.followup_state)
    (hph : t.phase = .guiding) : TFacts s t := by
  have hg : (s.guidance_state.reset.increment_attempt).1.attempt_count = 1 ∧
      (s.guidance_state.reset.increment_attempt).1.current_hint_level = 1 ∧
      (s.guidance_state.reset.increment_attempt).1.max_attempts = s.guidance_state.max_attempts := by
    unfold GuidanceState.increment_attempt GuidanceState.reset
    dsimp only
    norm_num
  refine ⟨?_, ?_, ?_, ?_⟩
  · rintro ⟨⟨hm, _⟩, hf⟩
    refine ⟨?_, by rw [h3]; exact hf⟩
    rw [h2]
    exact ⟨by rw [hg.2.2]; exact hm, by omega, by omega, by omega⟩
  · intro _ _
    rw [h2]
    exact ⟨by omega, hg.2.1⟩
  · intro _ hf
    rw [hph] at hf
    cases hf
  · left
    rw [h3]

theorem tfacts_inc {s t : Session}
    (h2 : t.guidance_state = (s.guidance_state.increment_attempt).1)
    (h3 : t.followup_state = s.followup_state)
    (hx : s.guidance_state.is_exhausted = false)
    (hph : t.phase = s.phase ∨ t.phase = .teaching) : TFacts s t := by
  refine ⟨?_, ?_, ?_, ?_⟩
  · rintro ⟨hg, hf⟩
    refine ⟨?_, by rw [h3]; exact hf⟩
    rw [h2]
    refine ginv_inc hg ?_
    obtain ⟨hm5, _, _, _⟩ := hg
    unfold GuidanceState.is_exhausted at hx
    simp only [decide_eq_false_iff_not, not_le] at hx
    omega
  · intro hne hg
    rcases hph with hph | hph
    · rw [hph] at hg
      exact (hne hg).elim
    · rw [hph] at hg
      cases hg
  · intro hne hf
    rcases hph with hph | hph
    · rw [hph] at hf
      exact (hne hf).elim
    · rw [hph] at hf
      cases hf
  · left
    rw [h3]

theorem tfacts_fadd {s t : Session} {q : Str}
    (h2 : t.guidance_state = s.guidance_state)
    (h3 : t.followup_state = s.followup_state.add_question q)
    (hguard : s.followup_state.questions_asked < s.followup_state.total_questions)
    (hph : t.phase = s.phase ∨ t.phase = .completed) : TFacts s t := by
  refine ⟨?_, ?_, ?_, ?_⟩
  · rintro ⟨hg, ht, ha, hl⟩
    refine ⟨by rw [h2]; exact hg, ?_, ?_, ?_⟩ <;>
      rw [h3] <;> unfold FollowUpState.add_question <;> dsimp only
    · exact ht
    · omega
    · simp
      omega
  · intro hne hg
    rcases hph with hph | hph
    · rw [hph] at hg
      exact (hne hg).elim
    · rw [hph] at hg
      cases hg
  · intro hne hf
    rcases hph with hph | hph
    · rw [hph] at hf
      exact (hne hf).elim
    · rw [hph] at hf
      cases hf
  · left
    rw [h3]
    unfold FollowUpState.add_question
    dsimp only
    omega

theorem tfacts_start_followup {s t : Session}
    (h2 : t.guidance_state = s.guidance_state)
    (h3 : t.followup_state = s.followup_state.reset ∨
      ∃ q, t.followup_state = s.followup_state.reset.add_question q)
    (hph : t.phase = .followup) : TFacts s t := by
  have hf : t.followup_state.questions_asked ≤ 1 ∧
      t.followup_state.questions_history.length = t.followup_state.questions_asked ∧
      t.followup_state.total_questions = s.followup_state.total_questions := by
    rcases h3 with h3 | ⟨q, h3⟩ <;> rw [h3] <;>
      simp [FollowUpState.reset, FollowUpState.add_question]
  refine ⟨?_, ?_, ?_, ?_⟩
  · rintro ⟨hg, ht, _, _⟩
    exact ⟨by rw [h2]; exact hg, by rw [hf.2.2]; exact ht, by omega, hf.2.1.symm⟩
  · intro _ hg
    rw [hph] at hg
    cases hg
  · intro _ _
    exact ⟨hf.1, hf.2.1⟩
  · right
    exact ⟨hph, hf.1⟩

theorem teaching_state_id (o : TurnOracle) (s : Session) :
    (handle_teaching o s).1 = s := by
  unfold handle_teaching
  rcases o.post_teach_text with e | t <;> rfl

theorem process_facts (o : TurnOracle) (s : Session) (u : Str) :
    TFacts s (process_input o s u).1 := by
  unfold process_input
  dsimp only
  cases hp : (s.add_message "user" u).phase <;> dsimp only
  case waiting_problem =>
    dsimp only [handle_waiting_problem]
    exact tfacts_keep rfl rfl (.inl rfl)
  case waiting_code =>
    rcases hr : handle_waiting_code o (s.add_message "user" u) u with ⟨s1, r⟩
    have hc := wc_cases o (s.add_message "user" u) u
    rw [hr] at hc
    dsimp only at hc
    have key : TFacts s s1 := by
      rcases hc with h | h | h | h | ⟨q, h⟩ | h | h | h | h <;> rw [h]
      · exact tfacts_keep rfl rfl (.inl rfl)
      · exact tfacts_keep rfl rfl (.inl rfl)
      · exact tfacts_start_guidance rfl rfl rfl
      · exact tfacts_start_followup rfl (.inl rfl) rfl
      · exact tfacts_start_followup rfl (.inr ⟨q, rfl⟩) rfl
      · exact tfacts_start_guidance rfl rfl rfl
      · exact tfacts_help_inc rfl rfl rfl
      · exact tfacts_keep rfl rfl (.inr ⟨fun h2 => (nomatch h2), fun h2 => (nomatch h2)⟩)
      · exact tfacts_keep rfl rfl (.inr ⟨fun h2 => (nomatch h2), fun h2 => (nomatch h2)⟩)
    rcases r with e | t <;> dsimp only <;> exact key
  case guiding =>
    rcases hr : handle_guiding o (s.add_message "user" u) u with ⟨s1, r⟩
    have hc := guiding_cases o (s.add_message "user" u) u
    rw [hr] at hc
    dsimp only at hc
    have key : TFacts s s1 := by
      rcases hc with h | h | h | h | h | ⟨q, h⟩ | h | ⟨hx, h | h⟩ <;> rw [h]
      · exact tfacts_keep rfl rfl (.inl rfl)
      · exact tfacts_keep rfl rfl (.inr ⟨fun h2 => (nomatch h2), fun h2 => (nomatch h2)⟩)
      · exact tfacts_keep rfl rfl (.inl rfl)
      · exact tfacts_start_guidance rfl rfl rfl
      · exact tfacts_start_followup rfl (.inl rfl) rfl
      · exact tfacts_start_followup rfl (.inr ⟨q, rfl⟩) rfl
      · exact tfacts_keep rfl rfl (.inr ⟨fun h2 => (nomatch h2), fun h2 => (nomatch h2)⟩)
      · exact tfacts_inc rfl rfl hx (.inl rfl)
      · exact tfacts_inc rfl rfl hx (.inr rfl)
    rcases r with e | t <;> dsimp only <;> exact key
  case followup =>
    rcases hr : handle_followup o (s.add_message "user" u) u with ⟨s1, r⟩
    have hc := fup_cases o (s.add_message "user" u) u
    rw [hr] at hc
    dsimp only at hc
    have key : TFacts s s1 := by
      rcases hc with h | h | ⟨hlt, q, h | h⟩
      · rw [h]
        exact tfacts_keep rfl rfl (.inl rfl)
      · rw [h]
        exact tfacts_keep rfl rfl (.inr ⟨fun h2 => (nomatch h2), fun h2 => (nomatch h2)⟩)
      · rw [h]
        exact tfacts_fadd rfl rfl hlt (.inl rfl)
      · rw [h]
        exact tfacts_fadd rfl rfl hlt (.inr rfl)
    rcases r with e | t <;> dsimp only <;> exact key
  case teaching =>
    rcases hr : handle_teaching o (s.add_message "user" u) with ⟨s1, r⟩
    have hc := teaching_state_id o (s.add_message "user" u)
    rw [hr] at hc
    dsimp only at hc
    have key : TFacts s s1 := by
      rw [hc]
      exact tfacts_keep rfl rfl (.inl rfl)
    rcases r with e | t <;> dsimp only <;> exact key
  case completed =>
    dsimp only [handle_completed]
    exact tfacts_keep rfl rfl (.inl rfl)

/-- Every reachable session state satisfies both tracker invariants. -/
theorem reachable_sinv {s : Session} (h : Reachable s) : SInv s := by
  induction h with
  | init sid =>
    exact ⟨⟨rfl, Nat.zero_le _, Nat.le_refl _, by show (1:Nat) ≤ 3; omega⟩,
      rfl, Nat.zero_le _, rfl⟩
  | assign s p _ ih =>
    obtain ⟨hg, hf⟩ := ih
    exact ⟨hg, hf⟩
  | turn s o input _ ih =>
    exact (process_facts o s input).1 ih
  | reset s _ ih =>
    obtain ⟨⟨hm, _, _, _⟩, ⟨ht, _, _⟩⟩ := ih
    refine ⟨⟨?_, ?_, ?_, ?_⟩, ?_, ?_, ?_⟩ <;>
      simp [Session.reset_for_new_problem, Session.transition_to,
        GuidanceState.reset, FollowUpState.reset, hm, ht]

/-! ## Claim theorems -/

/-- C9. TEACHING and COMPLETED are absorbing: a turn processed in either
phase leaves the phase unchanged (TEACHING answers post-teaching questions
via a plain-text collaborator call; COMPLETED returns the fixed
informational reply). -/
theorem c9_absorbing_phases (o : TurnOracle) (s : Session) (u : Str) :
    (s.phase = .teaching → (process_input o s u).1.phase = .teaching) ∧
    (s.phase = .completed → (process_input o s u).1.phase = .completed ∧
      (process_input o s u).2 = .ok completed_reply) := by
  constructor
  · intro h
    unfold process_input
    dsimp only
    have hp : (s.add_message "user" u).phase = SessionPhase.teaching := h
    rw [hp]
    dsimp only
    rcases hr : handle_teaching o (s.add_message "user" u) with ⟨s1, r⟩
    have hid := teaching_state_id o (s.add_message "user" u)
    rw [hr] at hid
    dsimp only at hid
    rcases r with e | t <;> dsimp only
    · rw [hid]
      exact h
    · rw [show (s1.add_message "assistant" t).phase = s1.phase from rfl, hid]
      exact h
  · intro h
    unfold process_input
    dsimp only
    have hp : (s.add_message "user" u).phase = SessionPhase.completed := h
    rw [hp]
    dsimp only [handle_completed]
    exact ⟨h, rfl⟩

/-- C9 witness: concrete TEACHING and COMPLETED sessions keep their phase,
and the COMPLETED reply is the fixed text. -/
theorem c9_absorbing_phases_witness :
    (process_input oracle_fail session_teaching "hi".toList).1.phase =
      SessionPhase.teaching ∧
    ((process_input oracle_fail session_completed "hi".toList).1.phase =
      SessionPhase.completed ∧
     (process_input oracle_fail session_completed "hi".toList).2 =
      .ok completed_reply) :=
  ⟨(c9_absorbing_phases oracle_fail session_teaching "hi".toList).1 rfl,
   (c9_absorbing_phases oracle_fail session_completed "hi".toList).2 rfl⟩

/-- C5. Guidance-tracker invariant: on every reachable session state,
`max_attempts = 5`, `attempt_count ≤ 5` and the hint level stays in `[1,3]`;
one `increment_attempt` never lowers the hint level and raises it by at most
one, escalating it to `min 3 (level + 1)` as soon as the count reaches 3;
`reset` restores zero attempts at level 1; and a turn that moves a session
into GUIDING from another phase leaves a freshly reset tracker (at most the
one attempt consumed by an immediate help request, hint level 1). -/
theorem c5_guidance_tracker_invariant :
    (∀ s, Reachable s → s.guidance_state.max_attempts = 5 ∧
      s.guidance_state.attempt_count ≤ 5 ∧
      1 ≤ s.guidance_state.current_hint_level ∧
      s.guidance_state.current_hint_level ≤ 3) ∧
    (∀ g : GuidanceState, 1 ≤ g.current_hint_level → g.current_hint_level ≤ 3 →
      g.current_hint_level ≤ (g.increment_attempt).1.current_hint_level ∧
      (g.increment_attempt).1.current_hint_level ≤ g.current_hint_level + 1 ∧
      (3 ≤ (g.increment_attempt).1.attempt_count →
        (g.increment_attempt).1.current_hint_level = min 3 (g.current_hint_level + 1))) ∧
    (∀ g : GuidanceState, g.reset.attempt_count = 0 ∧ g.reset.current_hint_level = 1) ∧
    (∀ o s u, s.phase ≠ .guiding → (process_input o s u).1.phase = .guiding →
      (process_input o s u).1.guidance_state.attempt_count ≤ 1 ∧
      (process_input o s u).1.guidance_state.current_hint_level = 1) := by
  refine ⟨?_, ?_, ?_, ?_⟩
  · intro s h
    exact (reachable_sinv h).1
  · intro g h1 h3
    unfold GuidanceState.increment_attempt
    dsimp only
    split <;> dsimp only <;> rename_i hcond
    · exact ⟨by omega, by omega, fun _ => rfl⟩
    · exact ⟨by omega, by omega, fun hge => absurd hge hcond⟩
  · intro g
    exact ⟨rfl, rfl⟩
  · intro o s u h1 h2
    exact (process_facts o s u).2.1 h1 h2

/-- C5 witness: the invariant at a freshly created session, the increment
facts at the initial tracker, the reset shape, and the reset-on-entry fact
on a concrete turn that enters GUIDING after an incorrect submission. -/
theorem c5_guidance_tracker_invariant_witness :
    ((create_session "w").guidance_state.max_attempts = 5 ∧
      (create_session "w").guidance_state.attempt_count ≤ 5 ∧
      1 ≤ (create_session "w").guidance_state.current_hint_level ∧
      (create_session "w").guidance_state.current_hint_level ≤ 3) ∧
    (({} : GuidanceState).current_hint_level ≤
        (({} : GuidanceState).increment_attempt).1.current_hint_level ∧
      (({} : GuidanceState).increment_attempt).1.current_hint_level ≤
        ({} : GuidanceState).current_hint_level + 1 ∧
      (3 ≤ (({} : GuidanceState).increment_attempt).1.attempt_count →
        (({} : GuidanceState).increment_attempt).1.current_hint_level =
          min 3 (({} : GuidanceState).current_hint_level + 1))) ∧
    (({} : GuidanceState).reset.attempt_count = 0 ∧
      ({} : GuidanceState).reset.current_hint_level = 1) ∧
    ((process_input oracle_partial_code session_waiting_code
        "def f(): pass".toList).1.guidance_state.attempt_count ≤ 1 ∧
     (process_input oracle_partial_code session_waiting_code
        "def f(): pass".toList).1.guidance_state.current_hint_level = 1) :=
  ⟨c5_guidance_tracker_invariant.1 _ (Reachable.init "w"),
   c5_guidance_tracker_invariant.2.1 {} (by decide) (by decide),
   c5_guidance_tracker_invariant.2.2.1 {},
   c5_guidance_tracker_invariant.2.2.2 oracle_partial_code session_waiting_code
     "def f(): pass".toList (by decide) (by decide)⟩

/-- C6. Follow-up-tracker invariant: on every reachable session state,
`total_questions = 3`, `questions_asked ≤ 3` and `questions_asked` equals
the history length; within a turn the counter never decreases except by the
reset of a (re-)entry into FOLLOWUP, which leaves at most the one freshly
generated question; and a turn that moves a session into FOLLOWUP from
another phase leaves a freshly reset tracker (at most one question, history
in sync). -/
theorem c6_followup_tracker_invariant :
    (∀ s, Reachable s → s.followup_state.total_questions = 3 ∧
      s.followup_state.questions_asked ≤ 3 ∧
      s.followup_state.questions_asked = s.followup_state.questions_history.length) ∧
    (∀ o s u, s.followup_state.questions_asked ≤
        (process_input o s u).1.followup_state.questions_asked ∨
      ((process_input o s u).1.phase = .followup ∧
        (process_input o s u).1.followup_state.questions_asked ≤ 1)) ∧
    (∀ o s u, s.phase ≠ .followup → (process_input o s u).1.phase = .followup →
      (process_input o s u).1.followup_state.questions_asked ≤ 1 ∧
      (process_input o s u).1.followup_state.questions_history.length =
        (process_input o s u).1.followup_state.questions_asked) := by
  refine ⟨?_, ?_, ?_⟩
  · intro s h
    exact (reachable_sinv h).2
  · intro o s u
    exact (process_facts o s u).2.2.2
  · intro o s u h1 h2
    exact (process_facts o s u).2.2.1 h1 h2

/-- C6 witness: the invariant at a freshly created session, monotonicity on
a concrete FOLLOWUP turn, and the reset-on-entry fact on a concrete correct
submission. -/
theorem c6_followup_tracker_invariant_witness :
    ((create_session "w").followup_state.total_questions = 3 ∧
      (create_session "w").followup_state.questions_asked ≤ 3 ∧
      (create_session "w").followup_state.questions_asked =
        (create_session "w").followup_state.questions_history.length) ∧
    (session_followup2.followup_state.questions_asked ≤
        (process_input oracle_fup_no_next session_followup2
          "my answer".toList).1.followup_state.questions_asked ∨
      ((process_input oracle_fup_no_next session_followup2
          "my answer".toList).1.phase = .followup ∧
        (process_input oracle_fup_no_next session_followup2
          "my answer".toList).1.followup_state.questions_asked ≤ 1)) ∧
    ((process_input oracle_correct_code session_waiting_code
        "def f(): pass".toList).1.followup_state.questions_asked ≤ 1 ∧
     (process_input oracle_correct_code session_waiting_code
        "def f(): pass".toList).1.followup_state.questions_history.length =
       (process_input oracle_correct_code session_waiting_code
        "def f(): pass".toList).1.followup_state.questions_asked) :=
  ⟨c6_followup_tracker_invariant.1 _ (Reachable.init "w"),
   c6_followup_tracker_invariant.2.1 oracle_fup_no_next session_followup2
     "my answer".toList,
   c6_followup_tracker_invariant.2.2 oracle_correct_code session_waiting_code
     "def f(): pass".toList (by decide) (by decide)⟩

theorem if_bool_true {α : Sort _} {b : Bool} (h : b = true) (x y : α) :
    (if b = true then x else y) = x := by
  rw [h]
  simp

theorem if_bool_false {α : Sort _} {b : Bool} (h : b = false) (x y : α) :
    (if b = true then x else y) = y := by
  rw [h]
  simp

/-- `_evaluate_and_respond` on a `correct` verdict: FOLLOWUP is entered with
a reset tracker, the first generated question is recorded, and the reply is
the evaluation reply glued to the question (the question alone when the
reply is empty). -/
theorem ear_correct_eq (o : TurnOracle) (s : Session) (u : Str) (d dq : PyDict)
    (heval : o.code_eval = .ok d)
    (hcor : pyEqStr (d.getD "evaluation" (.vstr "incorrect".toList))
      "correct".toList = true)
    (hq : o.followup_q = .ok dq) :
    evaluate_and_respond o s u =
      ({ ({ s with user_code := some u } : Session).start_followup with
          followup_state :=
            (({ s with user_code := some u } : Session).start_followup).followup_state.add_question
              (pyStr (dq.getD "question" (.vstr default_followup_question))) },
       .ok (if pyTruthy (d.getD "reply" (.vstr [])) then
              pyStr (d.getD "reply" (.vstr [])) ++ "\n\n".toList ++
                pyStr (dq.getD "question" (.vstr default_followup_question))
            else pyStr (dq.getD "question" (.vstr default_followup_question)))) := by
  unfold evaluate_and_respond
  rw [heval]
  dsimp only
  rw [if_bool_true hcor]
  unfold generate_followup_question
  rw [hq]

/-- `_evaluate_and_respond` on any non-`correct` verdict (including the
missing-field default `incorrect`): GUIDING is entered with a reset tracker
and only the evaluation reply is returned. -/
theorem ear_noncorrect_eq (o : TurnOracle) (s : Session) (u : Str) (d : PyDict)
    (heval : o.code_eval = .ok d)
    (hncor : pyEqStr (d.getD "evaluation" (.vstr "incorrect".toList))
      "correct".toList = false) :
    evaluate_and_respond o s u =
      (({ s with user_code := some u } : Session).start_guidance,
       .ok (pyStr (d.getD "reply" (.vstr [])))) := by
  unfold evaluate_and_respond
  rw [heval]
  dsimp only
  rw [if_bool_false hncor]

/-- A turn whose intent classifies as `submit_code` (from AWAITING_CODE, or
from GUIDING with attempts remaining) runs `_evaluate_and_respond`. -/
theorem process_submit_spec (o : TurnOracle) (s : Session) (u : Str) (ir : Str)
    (hphase : s.phase = .waiting_code ∨
      (s.phase = .guiding ∧ s.guidance_state.is_exhausted = false))
    (hint : recognize_intent o u = .ok (.submit_code, ir)) :
    process_input o s u =
      match evaluate_and_respond o (s.add_message "user" u) u with
      | (s1, .error e) => (s1, .error e)
      | (s1, .ok r) => (s1.add_message "assistant" r, .ok r) := by
  unfold process_input
  dsimp only
  rcases hphase with h | ⟨h, hex⟩
  · rw [show (s.add_message "user" u).phase = SessionPhase.waiting_code from h]
    dsimp only
    unfold handle_waiting_code
    rw [hint]
  · rw [show (s.add_message "user" u).phase = SessionPhase.guiding from h]
    dsimp only
    unfold handle_guiding
    rw [if_bool_false
      (show (s.add_message "user" u).guidance_state.is_exhausted = false from hex)]
    rw [hint]
    dsimp only
    rw [if_pos rfl]

/-- C2 counterexample. The claim asserts that no transcript entry from a
failed attempt is committed. On a TEACHING-phase session whose collaborator
call fails, the failure does propagate unchanged, but the user message has
already been appended to the transcript and stays committed. -/
theorem c2_counterexample :
    (process_input oracle_fail session_teaching "why?".toList).2 =
      .error "boom".toList ∧
    (process_input oracle_fail session_teaching "why?".toList).1.messages =
      [⟨"user", "why?".toList⟩] := by
  decide

/-- C2 amended: a collaborator failure propagates unchanged (the returned
error is exactly the failure of one of the turn's collaborator calls) and
the assistant reply is not committed; however the user message is appended
to the transcript before the handler runs and remains committed on failure.
On success both the user and the assistant entries are appended, in order. -/
theorem c2_failure_propagation (o : TurnOracle) (s : Session) (u : Str) :
    (∀ e, (process_input o s u).2 = .error e → o.IsErr e ∧
      (process_input o s u).1.messages = s.messages ++ [⟨"user", u⟩]) ∧
    (∀ t, (process_input o s u).2 = .ok t →
      (process_input o s u).1.messages =
        s.messages ++ [⟨"user", u⟩, ⟨"assistant", t⟩]) := by
  constructor
  · intro e he
    refine ⟨isErr_process he, ?_⟩
    rcases process_messages o s u with ⟨hm, _⟩ | ⟨t, ht, _⟩
    · exact hm
    · rw [he] at ht
      cases ht
  · intro t ht
    rcases process_messages o s u with ⟨_, e, he⟩ | ⟨t2, ht2, hm⟩
    · rw [he] at ht
      cases ht
    · rw [ht] at ht2
      cases ht2
      exact hm

/-- C2 witness: on a concrete failing turn the error is a collaborator
failure and only the user entry was committed. -/
theorem c2_failure_propagation_witness :
    oracle_fail.IsErr "boom".toList ∧
    (process_input oracle_fail session_teaching "why?".toList).1.messages =
      session_teaching.messages ++ [⟨"user", "why?".toList⟩] :=
  (c2_failure_propagation oracle_fail session_teaching "why?".toList).1
    "boom".toList (by decide)

/-- C3 counterexample. The claim asserts every tier, including the
code-indicator tier, matches case-insensitively. The input `"Return 5"`
contains the code indicator `"return"` up to case and no skip or help
keyword, so the claim requires `SUBMIT_CODE` from the keyword tier; the code
checks indicators against the raw input, finds none, and delegates to the
collaborator, which classifies it as OTHER here. -/
theorem c3_counterexample :
    strContains (pyLower "Return 5".toList) "return".toList = true ∧
    (skip_keywords.any fun kw =>
      strContains (pyTrim (pyLower "Return 5".toList)) kw) = false ∧
    (help_keywords.any fun kw =>
      strContains (pyTrim (pyLower "Return 5".toList)) kw) = false ∧
    recognize_intent oracle_intent_other "Return 5".toList =
      .ok (.other, []) := by
  decide

/-- C3 amended: the keyword tiers run in the fixed order skip, help,
code-indicator and short-circuit without consulting the collaborator (the
oracle is arbitrary and unused); the skip and help tiers match
case-insensitively on the lowercased, stripped input, while the
code-indicator tier matches case-sensitively against the raw input. -/
theorem c3_intent_keyword_tiers (o : TurnOracle) (u : Str) :
    ((skip_keywords.any fun kw => strContains (pyTrim (pyLower u)) kw) = true →
      recognize_intent o u = .ok (.skip_problem, [])) ∧
    ((skip_keywords.any fun kw => strContains (pyTrim (pyLower u)) kw) = false →
      (help_keywords.any fun kw => strContains (pyTrim (pyLower u)) kw) = true →
      recognize_intent o u = .ok (.ask_for_help, [])) ∧
    ((skip_keywords.any fun kw => strContains (pyTrim (pyLower u)) kw) = false →
      (help_keywords.any fun kw => strContains (pyTrim (pyLower u)) kw) = false →
      (code_indicators.any fun ind => strContains u ind) = true →
      recognize_intent o u = .ok (.submit_code, [])) := by
  refine ⟨?_, ?_, ?_⟩
  · intro h1
    unfold recognize_intent
    simp [h1]
  · intro h1 h2
    unfold recognize_intent
    simp [h1, h2]
  · intro h1 h2 h3
    unfold recognize_intent
    simp [h1, h2, h3]

/-- C3 witness: each tier fires on a concrete input, with every collaborator
call failing (so the result cannot have come from the collaborator). -/
theorem c3_intent_keyword_tiers_witness :
    recognize_intent oracle_fail "我想跳过".toList = .ok (.skip_problem, []) ∧
    recognize_intent oracle_fail "give me a hint".toList = .ok (.ask_for_help, []) ∧
    recognize_intent oracle_fail "def f(x): return x".toList = .ok (.submit_code, []) :=
  ⟨(c3_intent_keyword_tiers oracle_fail "我想跳过".toList).1 (by decide),
   (c3_intent_keyword_tiers oracle_fail "give me a hint".toList).2.1
     (by decide) (by decide),
   (c3_intent_keyword_tiers oracle_fail "def f(x): return x".toList).2.2
     (by decide) (by decide) (by decide)⟩

/-- A stand-in for `json.loads` at inputs where parsing succeeds only on the
exact payload `"x"`; used to exercise the whole-text strategy. -/
def loads_stub : Str → Option PyDict :=
  fun t => if t = "x".toList then some [("reply", .vstr "ok".toList)] else none

/-- A stand-in for `json.loads` on inputs where every parse attempt fails
(as `json.loads` does on `"hello"` and each of its extracted spans). -/
def loads_none : Str → Option PyDict := fun _ => none

/-- C4 counterexample. The claim asserts the fallback mapping is exactly
`{reply: <text>, error: "parse_failed"}`; the code returns the error tag
`"json_parse_failed"`. On `"hello"` (no fence, no braces, not parseable)
every strategy fails and the fallback differs from the claimed mapping. -/
theorem c4_counterexample :
    parse_json loads_none "hello".toList =
      [("reply", PyVal.vstr "hello".toList),
       ("error", PyVal.vstr "json_parse_failed".toList)] ∧
    parse_json loads_none "hello".toList ≠
      [("reply", PyVal.vstr "hello".toList),
       ("error", PyVal.vstr "parse_failed".toList)] := by
  decide

/-- C4 amended: `_parse_json` is total by construction and tries, in order:
(a) the whole text, (b) the interior of a ` ```json `-tagged fenced block,
(c) the interior of an untagged fenced block, (d) the first-brace-to-last-
brace span, returning the first success; if all fail it returns exactly
`{reply: <original text>, error: "json_parse_failed"}`. -/
theorem c4_parse_json_strategy_order (loads : Str → Option PyDict) (text : Str) :
    (∀ d, loads text = some d → parse_json loads text = d) ∧
    (loads text = none → ∀ d, strategy_tagged loads text = some d →
      parse_json loads text = d) ∧
    (loads text = none → strategy_tagged loads text = none →
      ∀ d, strategy_untagged loads text = some d → parse_json loads text = d) ∧
    (loads text = none → strategy_tagged loads text = none →
      strategy_untagged loads text = none →
      ∀ d, strategy_braces loads text = some d → parse_json loads text = d) ∧
    (loads text = none → strategy_tagged loads text = none →
      strategy_untagged loads text = none → strategy_braces loads text = none →
      parse_json loads text = parse_fallback text) := by
  refine ⟨?_, ?_, ?_, ?_, ?_⟩
  · intro d h
    unfold parse_json strategy_whole
    rw [h]
  · intro h0 d h
    unfold parse_json strategy_whole
    rw [h0, h]
  · intro h0 h1 d h
    unfold parse_json strategy_whole
    rw [h0, h1, h]
  · intro h0 h1 h2 d h
    unfold parse_json strategy_whole
    rw [h0, h1, h2, h]
  · intro h0 h1 h2 h3
    unfold parse_json strategy_whole
    rw [h0, h1, h2, h3]

/-- C4 witness: the whole-text strategy on a parseable payload, and the
fallback on a text where every strategy fails. -/
theorem c4_parse_json_strategy_order_witness :
    parse_json loads_stub "x".toList = [("reply", PyVal.vstr "ok".toList)] ∧
    parse_json loads_none "hello".toList = parse_fallback "hello".toList :=
  ⟨(c4_parse_json_strategy_order loads_stub "x".toList).1 _ (by decide),
   (c4_parse_json_strategy_order loads_none "hello".toList).2.2.2.2
     rfl (by decide) (by decide) (by decide)⟩

/-- C7. A code submission (from AWAITING_CODE, or from GUIDING with attempts
remaining) whose evaluation is `correct` moves the session to FOLLOWUP with
the tracker reset and the first generated question recorded as the only
history entry, and the reply is the evaluation reply concatenated (with a
blank line) with that question — the question alone when the evaluation
reply is empty. -/
theorem c7_correct_submission_starts_followup
    (o : TurnOracle) (s : Session) (u ir : Str) (d dq : PyDict)
    (hphase : s.phase = .waiting_code ∨
      (s.phase = .guiding ∧ s.guidance_state.is_exhausted = false))
    (hint : recognize_intent o u = .ok (.submit_code, ir))
    (heval : o.code_eval = .ok d)
    (hcor : pyEqStr (d.getD "evaluation" (.vstr "incorrect".toList))
      "correct".toList = true)
    (hq : o.followup_q = .ok dq) :
    (process_input o s u).1.phase = .followup ∧
    (process_input o s u).1.followup_state.questions_asked = 1 ∧
    (process_input o s u).1.followup_state.questions_history =
      [pyStr (dq.getD "question" (.vstr default_followup_question))] ∧
    (process_input o s u).2 =
      .ok (if pyTruthy (d.getD "reply" (.vstr [])) then
             pyStr (d.getD "reply" (.vstr [])) ++ "\n\n".toList ++
               pyStr (dq.getD "question" (.vstr default_followup_question))
           else pyStr (dq.getD "question" (.vstr default_followup_question))) := by
  rw [process_submit_spec o s u ir hphase hint]
  rw [ear_correct_eq o (s.add_message "user" u) u d dq heval hcor hq]
  refine ⟨rfl, ?_, ?_, rfl⟩ <;>
    simp [Session.add_message, Session.start_followup, Session.transition_to,
      FollowUpState.reset, FollowUpState.add_question]

/-- C7 witness: a concrete correct submission from AWAITING_CODE. -/
theorem c7_correct_submission_starts_followup_witness :
    (process_input oracle_correct_code session_waiting_code
        "def f(): pass".toList).1.phase = .followup ∧
    (process_input oracle_correct_code session_waiting_code
        "def f(): pass".toList).1.followup_state.questions_asked = 1 ∧
    (process_input oracle_correct_code session_waiting_code
        "def f(): pass".toList).1.followup_state.questions_history =
      [pyStr (followup_q_dict.getD "question" (.vstr default_followup_question))] ∧
    (process_input oracle_correct_code session_waiting_code
        "def f(): pass".toList).2 =
      .ok (if pyTruthy (eval_correct_dict.getD "reply" (.vstr [])) then
             pyStr (eval_correct_dict.getD "reply" (.vstr [])) ++ "\n\n".toList ++
               pyStr (followup_q_dict.getD "question" (.vstr default_followup_question))
           else pyStr (followup_q_dict.getD "question" (.vstr default_followup_question))) :=
  c7_correct_submission_starts_followup oracle_correct_code session_waiting_code
    "def f(): pass".toList [] eval_correct_dict followup_q_dict
    (.inl rfl) (by decide) rfl (by decide) rfl

/-- C10. A code submission whose evaluation tag is anything but exactly
`correct` — `partial`, `cannot_evaluate`, an unrecognized string, or a
missing field defaulting to `incorrect` — resets the guidance tracker,
moves the session to GUIDING, and returns only the evaluation reply. -/
theorem c10_noncorrect_submission_starts_guidance
    (o : TurnOracle) (s : Session) (u ir : Str) (d : PyDict)
    (hphase : s.phase = .waiting_code ∨
      (s.phase = .guiding ∧ s.guidance_state.is_exhausted = false))
    (hint : recognize_intent o u = .ok (.submit_code, ir))
    (heval : o.code_eval = .ok d)
    (hncor : pyEqStr (d.getD "evaluation" (.vstr "incorrect".toList))
      "correct".toList = false) :
    (process_input o s u).1.phase = .guiding ∧
    (process_input o s u).1.guidance_state = s.guidance_state.reset ∧
    (process_input o s u).2 = .ok (pyStr (d.getD "reply" (.vstr []))) := by
  rw [process_submit_spec o s u ir hphase hint]
  rw [ear_noncorrect_eq o (s.add_message "user" u) u d heval hncor]
  exact ⟨rfl, rfl, rfl⟩

/-- C10 witness: a concrete `partial` submission from AWAITING_CODE. -/
theorem c10_noncorrect_submission_starts_guidance_witness :
    (process_input oracle_partial_code session_waiting_code
        "def f(): pass".toList).1.phase = .guiding ∧
    (process_input oracle_partial_code session_waiting_code
        "def f(): pass".toList).1.guidance_state =
      session_waiting_code.guidance_state.reset ∧
    (process_input oracle_partial_code session_waiting_code
        "def f(): pass".toList).2 =
      .ok (pyStr (eval_partial_dict.getD "reply" (.vstr []))) :=
  c10_noncorrect_submission_starts_guidance oracle_partial_code
    session_waiting_code "def f(): pass".toList [] eval_partial_dict
    (.inl rfl) (by decide) rfl (by decide)

/-- C8. In GUIDING: with attempts already exhausted at the start of the turn
the session moves to TEACHING and the teaching content is the reply; on a
guided turn (intent neither submit-code nor skip) with
`user_on_right_track` false whose attempt increment reports exhaustion, the
session moves to TEACHING immediately and the teaching content replaces the
guidance reply; and a truthy `user_on_right_track` forces no transition —
the phase stays GUIDING and the guidance reply is returned. -/
theorem c8_guiding_exhaustion (o : TurnOracle) (s : Session) (u : Str)
    (t ir : Str) (gd : PyDict) (i : UserIntent) :
    (s.phase = .guiding → s.guidance_state.is_exhausted = true →
      o.teach_text = .ok t →
      (process_input o s u).1.phase = .teaching ∧ (process_input o s u).2 = .ok t) ∧
    (s.phase = .guiding → s.guidance_state.is_exhausted = false →
      recognize_intent o u = .ok (i, ir) →
      i ≠ .submit_code → i ≠ .skip_problem →
      o.guidance = .ok gd →
      pyTruthy (gd.getD "user_on_right_track" (.vbool false)) = false →
      (s.guidance_state.increment_attempt).2 = false →
      o.teach_text = .ok t →
      (process_input o s u).1.phase = .teaching ∧ (process_input o s u).2 = .ok t) ∧
    (s.phase = .guiding → s.guidance_state.is_exhausted = false →
      recognize_intent o u = .ok (i, ir) →
      i ≠ .submit_code → i ≠ .skip_problem →
      o.guidance = .ok gd →
      pyTruthy (gd.getD "user_on_right_track" (.vbool false)) = true →
      (process_input o s u).1.phase = .guiding ∧
      (process_input o s u).2 =
        .ok (pyStr (gd.getD "reply" (.vstr guidance_default_reply)))) := by
  refine ⟨?_, ?_, ?_⟩
  · intro h hex ht
    unfold process_input
    dsimp only
    rw [show (s.add_message "user" u).phase = SessionPhase.guiding from h]
    dsimp only
    unfold handle_guiding
    rw [if_bool_true
      (show (s.add_message "user" u).guidance_state.is_exhausted = true from hex)]
    unfold generate_teaching
    rw [ht]
    exact ⟨rfl, rfl⟩
  · intro h hex hint hi1 hi2 hg htrack hinc ht
    unfold process_input
    dsimp only
    rw [show (s.add_message "user" u).phase = SessionPhase.guiding from h]
    dsimp only
    unfold handle_guiding
    rw [if_bool_false
      (show (s.add_message "user" u).guidance_state.is_exhausted = false from hex)]
    rw [hint]
    dsimp only
    rw [if_neg (by exact fun h2 => hi1 h2), if_neg (by exact fun h2 => hi2 h2)]
    rw [hg]
    dsimp only
    rw [if_bool_false htrack]
    rw [if_bool_true (show (!((s.add_message "user" u).guidance_state.increment_attempt).2) = true
      from by rw [show ((s.add_message "user" u).guidance_state.increment_attempt).2 =
        (s.guidance_state.increment_attempt).2 from rfl, hinc]; rfl)]
    unfold generate_teaching
    rw [ht]
    exact ⟨rfl, rfl⟩
  · intro h hex hint hi1 hi2 hg htrack
    unfold process_input
    dsimp only
    rw [show (s.add_message "user" u).phase = SessionPhase.guiding from h]
    dsimp only
    unfold handle_guiding
    rw [if_bool_false
      (show (s.add_message "user" u).guidance_state.is_exhausted = false from hex)]
    rw [hint]
    dsimp only
    rw [if_neg (by exact fun h2 => hi1 h2), if_neg (by exact fun h2 => hi2 h2)]
    rw [hg]
    dsimp only
    rw [if_bool_true htrack]
    exact ⟨h, rfl⟩

/-- C8 witness: the three branches on concrete GUIDING sessions — five
attempts used at turn start, a fourth-to-fifth off-track turn, and an
on-track turn. -/
theorem c8_guiding_exhaustion_witness :
    ((process_input oracle_guiding_off session_guiding5 "也许用数组试试".toList).1.phase =
        SessionPhase.teaching ∧
     (process_input oracle_guiding_off session_guiding5 "也许用数组试试".toList).2 =
        .ok "这是参考解法。".toList) ∧
    ((process_input oracle_guiding_off session_guiding4 "也许用数组试试".toList).1.phase =
        SessionPhase.teaching ∧
     (process_input oracle_guiding_off session_guiding4 "也许用数组试试".toList).2 =
        .ok "这是参考解法。".toList) ∧
    ((process_input oracle_guiding_on session_guiding4 "也许用数组试试".toList).1.phase =
        SessionPhase.guiding ∧
     (process_input oracle_guiding_on session_guiding4 "也许用数组试试".toList).2 =
        .ok (pyStr (guidance_on_track_dict.getD "reply" (.vstr guidance_default_reply)))) :=
  ⟨(c8_guiding_exhaustion oracle_guiding_off session_guiding5 "也许用数组试试".toList
      "这是参考解法。".toList [] guidance_off_track_dict .answer_question).1
      rfl (by decide) rfl,
   (c8_guiding_exhaustion oracle_guiding_off session_guiding4 "也许用数组试试".toList
      "这是参考解法。".toList [] guidance_off_track_dict .answer_question).2.1
      rfl (by decide) (by decide) (by decide) (by decide) rfl (by decide)
      (by decide) rfl,
   (c8_guiding_exhaustion oracle_guiding_on session_guiding4 "也许用数组试试".toList
      "这是参考解法。".toList [] guidance_on_track_dict .answer_question).2.2
      rfl (by decide) (by decide) (by decide) (by decide) rfl (by decide)⟩

/-- C1 counterexample. Scenario E as claimed: FOLLOWUP with `asked=2`,
`total=3`, the evaluation returns `answer_quality=good` and **no**
`next_question`. The claim asserts the tracker becomes complete (`asked=3`),
the phase becomes COMPLETED and a closing remark is appended; the code
never records a third question in this case, so the tracker stays at 2, the
phase stays FOLLOWUP and the reply is returned without any closing line. -/
theorem c1_counterexample :
    (process_input oracle_fup_no_next session_followup2 "my answer".toList).1.phase =
      SessionPhase.followup ∧
    (process_input oracle_fup_no_next session_followup2
      "my answer".toList).1.followup_state.questions_asked = 2 ∧
    (process_input oracle_fup_no_next session_followup2 "my answer".toList).2 =
      .ok "分析正确。".toList := by
  decide

/-- C1 amended: in FOLLOWUP with `asked=2, total=3`, when the evaluation
response **does** carry a (truthy) `next_question`, that question is
appended (`asked=3`), the tracker is complete, the phase transitions to
COMPLETED, and the celebratory closing line is appended exactly when the
reply contains neither "恭喜" nor "完成"; with no `next_question` the
tracker and phase are unchanged (see the counterexample). -/
theorem c1_followup_completion (o : TurnOracle) (s : Session) (u : Str)
    (d : PyDict)
    (hphase : s.phase = .followup)
    (hasked : s.followup_state.questions_asked = 2)
    (htotal : s.followup_state.total_questions = 3)
    (he : o.followup_eval = .ok d)
    (hnext : pyTruthy (d.getD "next_question" (.vstr [])) = true) :
    (process_input o s u).1.phase = .completed ∧
    (process_input o s u).1.followup_state.questions_asked = 3 ∧
    (process_input o s u).1.followup_state.questions_history =
      s.followup_state.questions_history ++
        [pyStr (d.getD "next_question" (.vstr []))] ∧
    (process_input o s u).2 =
      .ok (if !strContains (pyStr (d.getD "reply" (.vstr []))) "恭喜".toList &&
              !strContains (pyStr (d.getD "reply" (.vstr []))) "完成".toList then
             pyStr (d.getD "reply" (.vstr [])) ++ followup_closing_line
           else pyStr (d.getD "reply" (.vstr []))) := by
  have e1 : (s.add_message "user" u).followup_state.questions_asked = 2 := hasked
  have e2 : (s.add_message "user" u).followup_state.total_questions = 3 := htotal
  unfold process_input
  dsimp only
  rw [show (s.add_message "user" u).phase = SessionPhase.followup from hphase]
  dsimp only
  unfold handle_followup
  dsimp only
  rw [if_bool_false (show (s.add_message "user" u).followup_state.is_complete = false from by
    unfold FollowUpState.is_complete
    rw [e1, e2]
    rfl)]
  rw [if_neg (show ¬((s.add_message "user" u).followup_state.questions_asked = 0) from by
    rw [e1]
    omega)]
  rw [he]
  dsimp only
  rw [if_pos (show (s.add_message "user" u).followup_state.questions_asked <
      (s.add_message "user" u).followup_state.total_questions from by
    rw [e1, e2]
    omega)]
  rw [if_bool_true hnext]
  rw [if_bool_true (show ({ s.add_message "user" u with
      followup_state := (s.add_message "user" u).followup_state.add_question
        (pyStr (d.getD "next_question" (.vstr []))) } : Session).followup_state.is_complete = true from by
    unfold FollowUpState.is_complete FollowUpState.add_question
    dsimp only
    rw [e1, e2]
    rfl)]
  cases hcl : (!strContains (pyStr (d.getD "reply" (PyVal.vstr []))) "恭喜".toList &&
      !strContains (pyStr (d.getD "reply" (PyVal.vstr []))) "完成".toList) <;>
    [simp only [if_bool_false rfl]; simp only [if_bool_true rfl]] <;>
    refine ⟨?_, ?_, ?_, ?_⟩ <;>
    first
      | trivial
      | simp [Session.complete, Session.transition_to, Session.add_message,
          FollowUpState.add_question, e1, hasked]

/-- C1 witness: the amended scenario on a concrete session with two of
three questions asked and an evaluation carrying a `next_question`. -/
theorem c1_followup_completion_witness :
    (process_input oracle_fup_with_next session_followup2 "my answer".toList).1.phase =
      SessionPhase.completed ∧
    (process_input oracle_fup_with_next session_followup2
      "my answer".toList).1.followup_state.questions_asked = 3 ∧
    (process_input oracle_fup_with_next session_followup2
      "my answer".toList).1.followup_state.questions_history =
      session_followup2.followup_state.questions_history ++
        [pyStr (followup_eval_good_with_next.getD "next_question" (.vstr []))] ∧
    (process_input oracle_fup_with_next session_followup2 "my answer".toList).2 =
      .ok (if !strContains (pyStr (followup_eval_good_with_next.getD "reply" (.vstr [])))
              "恭喜".toList &&
            !strContains (pyStr (followup_eval_good_with_next.getD "reply" (.vstr [])))
              "完成".toList then
             pyStr (followup_eval_good_with_next.getD "reply" (.vstr [])) ++
               followup_closing_line
           else pyStr (followup_eval_good_with_next.getD "reply" (.vstr []))) :=
  c1_followup_completion oracle_fup_with_next session_followup2
    "my answer".toList followup_eval_good_with_next
    rfl rfl rfl rfl (by decide)

end DM
